import Mathlib

/-!
Verification of the escrow settlement engine of `backend/app.py`.

The Python source is shallowly embedded: Python floats are modelled as exact
rationals, `round(x, n)` is modelled as rounding to `n` decimal places
(`round8`, `round2`), database rows become fields of explicit state records,
and every external-rail call (Tatum sends, PayPal captures, price lookups)
becomes an explicit outcome parameter so that each theorem quantifies over
the rail behaviour.  Python `round` uses round-half-to-even while Mathlib
`round` rounds half up; the two agree on every non-tie value and no claim
below depends on a tie.

Request handlers run concurrently against the shared database; the source
protects escrow updates with conditional writes keyed on the status read at
the start of the request.  The embedding exposes exactly that distinction:
`confirm_escrow` takes both the snapshot `snap` read at request start and
the database value `db` current when its conditional write executes, and
runs atomically from there, which is the interleaving granularity the
claims speak about.
-/

namespace Medius

/-! ### Decimal rounding, as in the source's `round(x, 8)` / `round(x, 2)` -/

/-- Round-to-nearest integer, written with `Rat.floor` so that it evaluates
on concrete rationals. -/
def roundQ (q : ℚ) : ℤ := Rat.floor (q + 1/2)

/-- `round(x, 8)` of the source: round to 8 decimal places. -/
def round8 (q : ℚ) : ℚ := (roundQ (q * 100000000) : ℚ) / 100000000

/-- `round(x, 2)` of the source: round to whole USD cents. -/
def round2 (q : ℚ) : ℚ := (roundQ (q * 100) : ℚ) / 100

/-! ### String constants of the source -/

def cryptoPM : String := "crypto"
def paypalPM : String := "paypal"
def releaseA : String := "release"
def cancelA : String := "cancel"
def pendingS : String := "pending"
def fundedS : String := "funded"
def processingS : String := "processing"
def completedS : String := "completed"
def releaseFailedS : String := "release_failed"
def cancelledS : String := "cancelled"
def failedS : String := "failed"
def paidS : String := "paid"
def depositT : String := "deposit"
def releaseT : String := "release"
def platformFeeT : String := "platform_fee"
def creditT : String := "credit"
def debitT : String := "debit"
def pendingVerificationS : String := "pending_verification"
def commissionSrc : String := "escrow_commission"
def withdrawalSrc : String := "withdrawal"
def withdrawalFailedSrc : String := "withdrawal_failed"

/-! ### FeeEngine: `calculate_platform_fee` (app.py lines 2313-2345) -/

structure FeeInfo where
  fee_rate : ℚ
  fee_amount : ℚ
  net_amount : ℚ
  usd_amount : ℚ
deriving DecidableEq, Repr

/-- `calculate_platform_fee(amount, currency, payment_method)`.  The live
price lookup `get_usd_price(currency)` is passed in as `price`; `none`
models a failed lookup or unmapped symbol (the source then coerces the
price to `0` via `get_usd_price(currency) or 0`, and a `some 0` price
likewise collapses to `0`).  The source's outer `try/except` can only
trigger on a non-numeric `amount` argument and is not modelled: `amount`
is already a number here. -/
def calculate_platform_fee (amount : ℚ) (price : Option ℚ) (payment_method : String) : FeeInfo :=
  let usd_amount : ℚ :=
    if payment_method = cryptoPM then round8 (amount * price.getD 0) else amount
  if payment_method = cryptoPM then
    let fee_rate : ℚ := if usd_amount < 50 then 2/100 else 15/1000
    let fee_amount := round8 (amount * fee_rate)
    { fee_rate := fee_rate, fee_amount := fee_amount,
      net_amount := round8 (amount - fee_amount), usd_amount := usd_amount }
  else if payment_method = paypalPM then
    let fee_rate : ℚ := 2/100
    let fee_amount := round8 (usd_amount * fee_rate)
    { fee_rate := fee_rate, fee_amount := fee_amount,
      net_amount := round8 (usd_amount - fee_amount), usd_amount := usd_amount }
  else
    let fee_rate : ℚ := 2/100
    let fee_amount := round8 (amount * fee_rate)
    { fee_rate := fee_rate, fee_amount := fee_amount,
      net_amount := round8 (amount - fee_amount), usd_amount := usd_amount }

/-! ### Data model: escrows, transactions, referral rows -/

/-- One row of the `escrows` table (the fields the engine reads/writes). -/
structure Escrow where
  id : String
  buyer_id : String
  seller_id : String
  payment_method : String
  currency : String
  amount : ℚ
  platform_fee_rate : ℚ
  platform_fee_amount : ℚ
  net_amount : ℚ
  usd_amount : ℚ
  status : String
  deposit_address : Option String
  paypal_authorization_id : Option String
  seller_address : Option String
  seller_paypal_email : Option String
  buyer_action : Option String
  seller_action : Option String
  buyer_confirmed : Bool
  seller_confirmed : Bool
deriving DecidableEq, Repr

/-- One row of the append-only `transactions` table. -/
structure Txn where
  escrow_id : String
  txType : String
  amount : ℚ
  currency : String
  tx_ref : Option String
  usd_amount : Option ℚ
deriving DecidableEq, Repr

/-- One row of `referral_payouts`. -/
structure ReferralPayout where
  referrer_id : String
  referred_user_id : String
  escrow_id : String
  amount_usd : ℚ
  rate : ℚ
deriving DecidableEq, Repr

/-- One row of `referral_ledger`. -/
structure LedgerEntry where
  user_id : String
  entryType : String
  source : String
  amount_usd : ℚ
deriving DecidableEq, Repr

/-- One row of `referral_withdrawals` (the fields the claims need). -/
structure Withdrawal where
  amount_usd : ℚ
  status : String
deriving DecidableEq, Repr

/-- The database state around a single escrow.  `settlements` counts the
invocations of `release_funds` (the SettlementDispatcher), which is the
quantity the dual-confirmation claims are about. -/
structure DB where
  escrow : Escrow
  transactions : List Txn
  referral_payouts : List ReferralPayout
  referral_ledger : List LedgerEntry
  settlements : Nat
deriving DecidableEq, Repr

/-- Rail/profile outcomes consumed by one request: the configured fee
address, the result of each Tatum send (`some tx` on success), the PayPal
capture/payout pair, the buyer's `referred_by` profile column, and the
`REFERRAL_RATE` configuration. -/
structure Env where
  fee_address : Option String
  fee_send : Option String
  seller_send : Option String
  paypal_release : Option (Option String × Option String)
  buyer_referrer : Option String
  referral_rate : ℚ
deriving DecidableEq, Repr

/-- `create_escrow` (app.py lines 1745-1769): the escrow row inserted at
creation, with the FeeEngine outputs persisted on it and status `pending`. -/
def create_escrow_record (id buyer_id seller_id : String) (amount : ℚ) (currency : String)
    (payment_method : String) (price : Option ℚ) : Escrow :=
  let fee_info := calculate_platform_fee amount price payment_method
  { id := id, buyer_id := buyer_id, seller_id := seller_id,
    payment_method := payment_method, currency := currency, amount := amount,
    platform_fee_rate := fee_info.fee_rate, platform_fee_amount := fee_info.fee_amount,
    net_amount := fee_info.net_amount, usd_amount := fee_info.usd_amount,
    status := pendingS, deposit_address := none, paypal_authorization_id := none,
    seller_address := none, seller_paypal_email := none,
    buyer_action := none, seller_action := none,
    buyer_confirmed := false, seller_confirmed := false }

/-! ### ReferralLedger: `award_referral_payout` (app.py lines 2848-2911) -/

/-- `award_referral_payout(escrow_id)`.  Returns the source's boolean
result together with the new database state.  Check order as in the
source: supported payment method, existing payout for the escrow, buyer's
referrer, then positivity of the USD fee and of `REFERRAL_RATE`. -/
def award_referral_payout (env : Env) (db : DB) : Bool × DB :=
  let e := db.escrow
  if e.payment_method ≠ cryptoPM ∧ e.payment_method ≠ paypalPM then (true, db)
  else if db.referral_payouts.any (fun p => p.escrow_id == e.id) then (true, db)
  else
    match env.buyer_referrer with
    | none => (true, db)
    | some referrer_id =>
      let platform_fee_usd := round2 (e.usd_amount * e.platform_fee_rate)
      if platform_fee_usd ≤ 0 ∨ env.referral_rate ≤ 0 then (true, db)
      else
        let commission_usd := round2 (platform_fee_usd * env.referral_rate)
        (true, { db with
          referral_payouts := db.referral_payouts ++
            [{ referrer_id := referrer_id, referred_user_id := e.buyer_id,
               escrow_id := e.id, amount_usd := commission_usd, rate := env.referral_rate }],
          referral_ledger := db.referral_ledger ++
            [{ user_id := referrer_id, entryType := creditT, source := commissionSrc,
               amount_usd := commission_usd }] })

/-! ### SettlementDispatcher: `release_funds` (app.py lines 2565-2706) -/

/-- `release_funds(escrow_id)`.  For crypto: best-effort platform-fee send
(attempted when the stored fee is nonzero and a fee address is configured;
its failure is logged but not fatal), then the net-amount send to the
seller; on seller-send failure the function returns `False` before any
transaction row is inserted.  On success it records the `release` and
`platform_fee` rows and then accrues the referral commission.  For PayPal:
capture + payout, recording one `release` row on success.  Any other
payment method falls through both branches and returns `True`. -/
def release_funds (env : Env) (db : DB) : Bool × DB :=
  let e := db.escrow
  if e.payment_method = cryptoPM then
    match e.seller_address with
    | none => (false, db)
    | some _ =>
      let platform_fee_tx : Option String :=
        if e.platform_fee_amount ≠ 0 ∧ env.fee_address.isSome then env.fee_send else none
      match env.seller_send with
      | none => (false, db)
      | some seller_tx =>
        let platform_fee_usd := round2 (e.usd_amount * e.platform_fee_rate)
        let db1 := { db with transactions := db.transactions ++
          [ { escrow_id := e.id, txType := releaseT, amount := e.net_amount,
              currency := e.currency, tx_ref := some seller_tx,
              usd_amount := some e.usd_amount },
            { escrow_id := e.id, txType := platformFeeT, amount := e.platform_fee_amount,
              currency := e.currency, tx_ref := platform_fee_tx,
              usd_amount := some platform_fee_usd } ] }
        (true, (award_referral_payout env db1).2)
  else if e.payment_method = paypalPM then
    if e.paypal_authorization_id.isNone ∨ e.seller_paypal_email.isNone then (false, db)
    else
      match env.paypal_release with
      | none => (false, db)
      | some (capture_id, _) =>
        (true, { db with transactions := db.transactions ++
          [ { escrow_id := e.id, txType := releaseT, amount := e.net_amount,
              currency := e.currency,
              tx_ref := (capture_id <|> e.paypal_authorization_id),
              usd_amount := some e.net_amount } ] })
  else (true, db)

/-! ### ConfirmationCoordinator: `confirm_escrow` (app.py lines 1893-2001) -/

/-- Response of `confirm_escrow`: an error status code, or 200 together
with the escrow payload returned to the caller. -/
inductive ConfirmResp where
  | err (code : Nat)
  | ok (e : Escrow)
deriving DecidableEq, Repr

/-- The source's `update_data` write: only the submitting party's own
action column is set. -/
def update_own_action (uid action : String) (snap : Escrow) (db : DB) : DB :=
  if snap.buyer_id = uid
  then { db with escrow := { db.escrow with buyer_action := some action } }
  else { db with escrow := { db.escrow with seller_action := some action } }

/-- The release block of `confirm_escrow`: the conditional status flip to
`processing` keyed on the previously read status (409 conflict when it
fails), then `release_funds`, then `completed` on success or
`release_failed` on failure. -/
def converge_release (env : Env) (snap : Escrow) (db1 : DB) : DB × ConfirmResp :=
  if db1.escrow.status ≠ snap.status then (db1, .err 409)
  else
    let db2 := { db1 with
      escrow := { db1.escrow with
        status := processingS, buyer_confirmed := true, seller_confirmed := true },
      settlements := db1.settlements + 1 }
    let res := release_funds env db2
    if res.1 then
      let db3 := { res.2 with escrow := { res.2.escrow with status := completedS } }
      (db3, .ok db3.escrow)
    else
      let db3 := { res.2 with escrow := { res.2.escrow with status := releaseFailedS } }
      (db3, .err 500)

/-- `confirm_escrow(escrow_id)` with request body action.  `snap` is the
escrow row read at the start of the request; `db` is the database state
when the conditional action-write executes.  Both the action-write and the
status flip to `processing` are conditioned on the status still equaling
`snap.status`, exactly as the source's `.eq('status', escrow.data['status'])`. -/
def confirm_escrow (env : Env) (uid action : String) (snap : Escrow) (db : DB) :
    DB × ConfirmResp :=
  if action ≠ releaseA ∧ action ≠ cancelA then (db, .err 400)
  else if uid ≠ snap.buyer_id ∧ uid ≠ snap.seller_id then (db, .err 403)
  else if action = releaseA ∧ snap.payment_method = cryptoPM ∧ snap.seller_address.isNone then
    (db, .err 400)
  else if action = releaseA ∧ snap.payment_method = paypalPM ∧ snap.seller_paypal_email.isNone then
    (db, .err 400)
  else if db.escrow.status ≠ snap.status then
    (db, .ok db.escrow)
  else
    let db1 := update_own_action uid action snap db
    let other_action := if snap.buyer_id = uid then snap.seller_action else snap.buyer_action
    if other_action = some action then
      if action = releaseA then converge_release env snap db1
      else
        let db2 := { db1 with escrow := { db1.escrow with status := cancelledS } }
        (db2, .ok db2.escrow)
    else (db1, .ok db1.escrow)

/-- The stored monetary fields of an escrow, bundled for the preservation
claims: amount, fee rate, fee amount, net amount, USD valuation. -/
def feeFields (e : Escrow) : ℚ × ℚ × ℚ × ℚ × ℚ :=
  (e.amount, e.platform_fee_rate, e.platform_fee_amount, e.net_amount, e.usd_amount)

/-- The two confirmation-action columns of an escrow, bundled for the
claims about which party's field a request may write. -/
def actionFields (e : Escrow) : Option String × Option String :=
  (e.buyer_action, e.seller_action)

/-! ### Funding detection: `check_payment_status` (app.py lines 2003-2035)
and `handle_paypal_authorization` (app.py lines 2193-2227) -/

/-- Response of the funding-detection handlers. -/
inductive PayResp where
  | err (code : Nat)
  | funded (payload : Option Escrow)
  | stillPending
deriving DecidableEq, Repr

/-- `check_payment_status(escrow_id)`: `received` is the result of
`check_crypto_payment` (observed balance ≥ required).  The flip to
`funded` is conditioned on the status still being `pending`; the deposit
row is inserted only when that conditional update succeeded. -/
def check_payment_status (uid : String) (received : Bool) (db : DB) : DB × PayResp :=
  let e := db.escrow
  if e.buyer_id ≠ uid then (db, .err 403)
  else if e.payment_method = cryptoPM ∧ e.deposit_address.isSome then
    if received then
      if db.escrow.status = pendingS then
        let db1 := { db with
          escrow := { db.escrow with status := fundedS },
          transactions := db.transactions ++
            [ { escrow_id := e.id, txType := depositT, amount := e.amount,
                currency := e.currency, tx_ref := some pendingVerificationS,
                usd_amount := none } ] }
        (db1, .funded (some db1.escrow))
      else (db, .funded none)
    else (db, .stillPending)
  else (db, .err 400)

/-- `handle_paypal_authorization(escrow_id)`: `auth_id` is the result of
`get_authorization_id_from_order(token)`.  The flip to `funded` is
conditioned on the status still being `pending`; an already-funded escrow
gets a 409 conflict and no deposit row. -/
def handle_paypal_authorization (token : Option String) (auth_id : Option String) (db : DB) :
    DB × PayResp :=
  if token.isNone then (db, .err 400)
  else
    let e := db.escrow
    match auth_id with
    | none => (db, .err 500)
    | some a =>
      if db.escrow.status = pendingS then
        let db1 := { db with
          escrow := { db.escrow with status := fundedS, paypal_authorization_id := some a },
          transactions := db.transactions ++
            [ { escrow_id := e.id, txType := depositT, amount := e.amount,
                currency := e.currency, tx_ref := some a, usd_amount := some e.amount } ] }
        (db1, .funded (some db1.escrow))
      else (db, .err 409)

/-! ### WalletCustodyCache: `generate_crypto_address` (app.py lines 2393-2463) -/

/-- One row of `escrow_wallets` / one entry of `ESCROW_WALLET_IDS`. -/
structure WalletRec where
  escrow_id : String
  mnemonic : Option String
  xpub : String
  address : String
  currency : String
  chain : String
  address_index : Nat
deriving DecidableEq, Repr

/-- The wallet state: the in-memory module-level cache and the durable
`escrow_wallets` table. -/
structure WalletSt where
  cache : List (String × WalletRec)
  store : List WalletRec
deriving DecidableEq, Repr

/-- External inputs of one `generate_crypto_address` call: whether
`TATUM_API_KEY` is configured, the `CHAIN_MAP` entry for the currency, the
Tatum wallet response (mnemonic, xpub), the address-derivation response,
and whether the `escrow_wallets` insert succeeds (its exception is
swallowed by the source). -/
structure WalletEnv where
  api_key : Bool
  chain : Option String
  wallet_resp : Option (Option String × Option String)
  addr_resp : Option String
  store_insert_ok : Bool
deriving DecidableEq, Repr

/-- `generate_crypto_address(currency, escrow_id)`.  Returns the address
(`none` on failure), the new wallet state, and whether the rail wallet
generation was invoked.  Check order as in the source: in-memory cache
under the mutex, then the durable store (writing the hit through to the
cache), then generation with write-through to store and cache. -/
def generate_crypto_address (env : WalletEnv) (currency escrow_id : String) (st : WalletSt) :
    Option String × WalletSt × Bool :=
  match st.cache.lookup escrow_id with
  | some w => (some w.address, st, false)
  | none =>
    match st.store.find? (fun w => w.escrow_id == escrow_id) with
    | some w => (some w.address, { st with cache := (escrow_id, w) :: st.cache }, false)
    | none =>
      if ¬ env.api_key then (none, st, false)
      else
        match env.chain with
        | none => (none, st, false)
        | some chain =>
          match env.wallet_resp with
          | none => (none, st, true)
          | some (mnemonic, xpubO) =>
            match xpubO with
            | none => (none, st, true)
            | some xpub =>
              match env.addr_resp with
              | none => (none, st, true)
              | some address =>
                let w : WalletRec :=
                  { escrow_id := escrow_id, mnemonic := mnemonic, xpub := xpub,
                    address := address, currency := currency, chain := chain,
                    address_index := 0 }
                let store1 := if env.store_insert_ok then st.store ++ [w] else st.store
                (some address, { cache := (escrow_id, w) :: st.cache, store := store1 }, true)

/-! ### Referral withdrawals: `referral_withdraw` (app.py lines 3053-3181) -/

def MIN_WITHDRAW_USD : ℚ := 5

def ledgerCredits (uid : String) (l : List LedgerEntry) : ℚ :=
  ((l.filter (fun x => x.user_id == uid && x.entryType == creditT)).map
    (fun x => x.amount_usd)).sum

def ledgerDebits (uid : String) (l : List LedgerEntry) : ℚ :=
  ((l.filter (fun x => x.user_id == uid && x.entryType == debitT)).map
    (fun x => x.amount_usd)).sum

/-- The referral balance as the claims define it: sum of ledger credits
minus sum of ledger debits, before the source's rounding to cents. -/
def ledgerBalanceRaw (uid : String) (l : List LedgerEntry) : ℚ :=
  ledgerCredits uid l - ledgerDebits uid l

/-- Ledger-facing state of the withdrawal flow. -/
structure RefSt where
  ledger : List LedgerEntry
  withdrawals : List Withdrawal
deriving DecidableEq, Repr

/-- Outcome of the external payout attempt inside `referral_withdraw`:
price lookup failed or non-positive, `send_platform_crypto` returned
falsy, an exception was raised, or the payout went through. -/
inductive PayoutOutcome where
  | priceUnavailable
  | payoutError
  | exceptionRaised
  | paid (tx : String)
deriving DecidableEq, Repr

/-- `referral_withdraw()`: validation (minimum, 10000 cap, currency and
address checks), balance check against the cent-rounded ledger balance,
immediate debit, then the payout attempt; every failure outcome inserts a
compensating credit and marks the withdrawal `failed`.  Returns the new
state and the HTTP status code. -/
def referral_withdraw (uid : String) (amount_usd : ℚ) (currencyOk addressOk : Bool)
    (outcome : PayoutOutcome) (st : RefSt) : RefSt × Nat :=
  if amount_usd < MIN_WITHDRAW_USD then (st, 400)
  else if amount_usd > 10000 then (st, 400)
  else if ¬ (currencyOk && addressOk) then (st, 400)
  else
    let balance := round2 (ledgerCredits uid st.ledger - ledgerDebits uid st.ledger)
    if amount_usd > balance then (st, 400)
    else
      let ledger1 := st.ledger ++
        [{ user_id := uid, entryType := debitT, source := withdrawalSrc,
           amount_usd := amount_usd }]
      match outcome with
      | .paid _ =>
        ({ ledger := ledger1,
           withdrawals := st.withdrawals ++ [{ amount_usd := amount_usd, status := paidS }] },
         200)
      | _ =>
        ({ ledger := ledger1 ++
            [{ user_id := uid, entryType := creditT, source := withdrawalFailedSrc,
               amount_usd := amount_usd }],
           withdrawals := st.withdrawals ++ [{ amount_usd := amount_usd, status := failedS }] },
         500)

/-- One ledger-affecting operation: a referral accrual credit (the source
only credits a cent-rounded commission computed from a positive fee) or a
withdrawal request. -/
inductive RefOp where
  | accrue (commission : ℚ)
  | withdraw (amount : ℚ) (currencyOk addressOk : Bool) (outcome : PayoutOutcome)
deriving DecidableEq, Repr

def applyRefOp (uid : String) (st : RefSt) (op : RefOp) : RefSt :=
  match op with
  | .accrue c =>
    { st with ledger := st.ledger ++
        [{ user_id := uid, entryType := creditT, source := commissionSrc, amount_usd := c }] }
  | .withdraw a cOk aOk outcome => (referral_withdraw uid a cOk aOk outcome st).1

def runRefOps (uid : String) (st : RefSt) (ops : List RefOp) : RefSt :=
  ops.foldl (applyRefOp uid) st

/-- Accruals inserted by the source are nonnegative (the source only
credits `round2` of a positive commission). -/
def validRefOp : RefOp → Prop
  | .accrue c => 0 ≤ c
  | .withdraw _ _ _ _ => True

/-! ### Concrete fixtures used by witnesses and counterexamples -/

def anId : String := "esc-1"
def buyerU : String := "buyer-1"
def sellerU : String := "seller-1"
def refU : String := "referrer-1"
def btcC : String := "BTC"
def chain1 : String := "bitcoin"
def depAddr1 : String := "dep-addr-1"
def addr1 : String := "seller-addr-1"
def feeAddr1 : String := "fee-addr-1"
def tx1 : String := "tx-fee-1"
def tx2 : String := "tx-seller-1"
def xpub1 : String := "xpub-1"
def mnem1 : String := "mnemonic-1"

/-- A funded crypto escrow with the §8 scenario numbers 0.02 BTC at 40 USD. -/
def sampleEscrow : Escrow :=
  { id := anId, buyer_id := buyerU, seller_id := sellerU, payment_method := cryptoPM,
    currency := btcC, amount := 2/100, platform_fee_rate := 2/100,
    platform_fee_amount := 4/10000, net_amount := 196/10000, usd_amount := 40,
    status := fundedS, deposit_address := some depAddr1, paypal_authorization_id := none,
    seller_address := some addr1, seller_paypal_email := none,
    buyer_action := none, seller_action := none,
    buyer_confirmed := false, seller_confirmed := false }

def sampleDB : DB :=
  { escrow := sampleEscrow, transactions := [], referral_payouts := [],
    referral_ledger := [], settlements := 0 }

/-- Rails all succeed, buyer has no referrer. -/
def envOk : Env :=
  { fee_address := some feeAddr1, fee_send := some tx1, seller_send := some tx2,
    paypal_release := none, buyer_referrer := none, referral_rate := 2/10 }

/-- Platform-fee send succeeds, seller send fails. -/
def envSellerFail : Env := { envOk with seller_send := none }

/-- The sample escrow still awaiting funding. -/
def samplePendingDB : DB :=
  { sampleDB with escrow := { sampleEscrow with status := pendingS } }

/-- The sample escrow after the buyer has already submitted `release`. -/
def sampleBuyerReleasedEscrow : Escrow :=
  { sampleEscrow with buyer_action := some releaseA }

def sampleBuyerReleasedDB : DB :=
  { sampleDB with escrow := sampleBuyerReleasedEscrow }

/-- The sample escrow already being processed by another request. -/
def sampleProcessingDB : DB :=
  { sampleDB with escrow := { sampleEscrow with status := processingS } }

def emptyWalletSt : WalletSt := { cache := [], store := [] }

/-- Wallet-generation rail succeeds end to end. -/
def envWalletOk : WalletEnv :=
  { api_key := true, chain := some chain1, wallet_resp := some (some mnem1, some xpub1),
    addr_resp := some depAddr1, store_insert_ok := true }

/-- Ledger rows of the C6 counterexample trace. -/
def cexCredit100 : LedgerEntry :=
  { user_id := refU, entryType := creditT, source := commissionSrc, amount_usd := 100 }

def cexSt1 : RefSt := { ledger := [cexCredit100], withdrawals := [] }

/-! ## Helper lemmas -/

theorem ratFloor_eq_intFloor (q : ℚ) : Rat.floor q = ⌊q⌋ := by
  rw [Rat.floor_def, Rat.floor_def']

theorem roundQ_eq (q : ℚ) : roundQ q = round q := by
  rw [roundQ, ratFloor_eq_intFloor, round_eq]

theorem abs_round8_sub (q : ℚ) : |round8 q - q| ≤ 1 / 100000000 := by
  have h : |q * 100000000 - (round (q * 100000000) : ℚ)| ≤ 1 / 2 := abs_sub_round _
  have e : round8 q - q = ((round (q * 100000000) : ℚ) - q * 100000000) / 100000000 := by
    rw [round8, roundQ_eq]; ring
  rw [e, abs_div, abs_sub_comm]
  rw [show |(100000000 : ℚ)| = 100000000 by norm_num]
  rw [div_le_iff₀ (by norm_num : (0:ℚ) < 100000000)]
  calc |q * 100000000 - (round (q * 100000000) : ℚ)| ≤ 1/2 := h
    _ ≤ 1 / 100000000 * 100000000 := by norm_num

theorem round2_le_add_half_cent (q : ℚ) : round2 q ≤ q + 1 / 200 := by
  have h : (round (q * 100) : ℚ) ≤ q * 100 + 1 / 2 := round_le_add_half _
  rw [round2, roundQ_eq, div_le_iff₀ (by norm_num : (0:ℚ) < 100)]
  calc (round (q * 100) : ℚ) ≤ q * 100 + 1/2 := h
    _ = (q + 1 / 200) * 100 := by ring

theorem net_fee_bound (x fee : ℚ) : |round8 (x - fee) + fee - x| ≤ 1 / 100000000 := by
  have h := abs_round8_sub (x - fee)
  have e : |round8 (x - fee) + fee - x| = |round8 (x - fee) - (x - fee)| := by
    congr 1; ring
  rw [e]; exact h

theorem calculate_platform_fee_crypto (a : ℚ) (p : Option ℚ) :
    calculate_platform_fee a p cryptoPM =
      { fee_rate := if round8 (a * p.getD 0) < 50 then 2/100 else 15/1000,
        fee_amount := round8 (a * (if round8 (a * p.getD 0) < 50 then 2/100 else 15/1000)),
        net_amount :=
          round8 (a - round8 (a * (if round8 (a * p.getD 0) < 50 then 2/100 else 15/1000))),
        usd_amount := round8 (a * p.getD 0) } := by
  simp [calculate_platform_fee]

theorem calculate_platform_fee_paypal (a : ℚ) (p : Option ℚ) :
    calculate_platform_fee a p paypalPM =
      { fee_rate := 2/100, fee_amount := round8 (a * (2/100)),
        net_amount := round8 (a - round8 (a * (2/100))), usd_amount := a } := by
  simp [calculate_platform_fee, paypalPM, cryptoPM]

theorem calculate_platform_fee_other (a : ℚ) (p : Option ℚ) (pm : String)
    (h1 : pm ≠ cryptoPM) (h2 : pm ≠ paypalPM) :
    calculate_platform_fee a p pm =
      { fee_rate := 2/100, fee_amount := round8 (a * (2/100)),
        net_amount := round8 (a - round8 (a * (2/100))), usd_amount := a } := by
  simp [calculate_platform_fee, h1, h2]

theorem award_preserves_escrow (env : Env) (db : DB) :
    (award_referral_payout env db).2.escrow = db.escrow := by
  unfold award_referral_payout
  repeat first | rfl | (dsimp only) | split

theorem release_preserves_escrow (env : Env) (db : DB) :
    (release_funds env db).2.escrow = db.escrow := by
  unfold release_funds
  repeat first | rfl | exact award_preserves_escrow env _ | (dsimp only) | split

theorem update_own_action_feeFields (uid action : String) (snap : Escrow) (db : DB) :
    feeFields (update_own_action uid action snap db).escrow = feeFields db.escrow := by
  unfold update_own_action
  split <;> rfl

theorem update_own_action_status (uid action : String) (snap : Escrow) (db : DB) :
    (update_own_action uid action snap db).escrow.status = db.escrow.status := by
  unfold update_own_action
  split <;> rfl

theorem converge_release_feeFields (env : Env) (snap : Escrow) (db1 : DB) :
    feeFields (converge_release env snap db1).1.escrow = feeFields db1.escrow := by
  unfold converge_release
  dsimp only
  split_ifs <;> first | rfl | (simp only [feeFields]; rw [release_preserves_escrow])

theorem update_own_action_buyer (uid action : String) (snap : Escrow) (db : DB)
    (h : snap.buyer_id = uid) :
    update_own_action uid action snap db
      = { db with escrow := { db.escrow with buyer_action := some action } } := by
  unfold update_own_action
  rw [if_pos h]

theorem update_own_action_seller (uid action : String) (snap : Escrow) (db : DB)
    (h : ¬ snap.buyer_id = uid) :
    update_own_action uid action snap db
      = { db with escrow := { db.escrow with seller_action := some action } } := by
  unfold update_own_action
  rw [if_neg h]

theorem converge_release_actionFields (env : Env) (snap : Escrow) (db1 : DB) :
    actionFields (converge_release env snap db1).1.escrow = actionFields db1.escrow := by
  unfold converge_release
  dsimp only
  split_ifs <;> first | rfl | (simp only [actionFields]; rw [release_preserves_escrow])

/-! ## Claim theorems -/

/-- C3: for every crypto escrow the fee computation returns rate 2% when
the USD-equivalent is below 50 and 1.5% otherwise (boundary USD values
49.99 and 50.00 included), with fee and net computed in crypto units
directly from `amount`; for PayPal (the card rail) the rate is always 2%
of the USD amount; and the scenario amount 0.02 BTC at usd_amount 40
yields rate 0.02, fee 0.0004, net 0.0196. -/
theorem crypto_fee_tiers_paypal_flat_and_scenario :
    (∀ a p, (calculate_platform_fee a p cryptoPM).fee_rate =
        (if (calculate_platform_fee a p cryptoPM).usd_amount < 50 then 2/100 else 15/1000)
      ∧ (calculate_platform_fee a p cryptoPM).fee_amount =
          round8 (a * (calculate_platform_fee a p cryptoPM).fee_rate)
      ∧ (calculate_platform_fee a p cryptoPM).net_amount =
          round8 (a - (calculate_platform_fee a p cryptoPM).fee_amount))
    ∧ (calculate_platform_fee (4999/100) (some 1) cryptoPM).fee_rate = 2/100
    ∧ (calculate_platform_fee 50 (some 1) cryptoPM).fee_rate = 15/1000
    ∧ (∀ a p, (calculate_platform_fee a p paypalPM).fee_rate = 2/100
      ∧ (calculate_platform_fee a p paypalPM).usd_amount = a
      ∧ (calculate_platform_fee a p paypalPM).fee_amount = round8 (a * (2/100)))
    ∧ calculate_platform_fee (2/100) (some 2000) cryptoPM =
        { fee_rate := 2/100, fee_amount := 4/10000, net_amount := 196/10000,
          usd_amount := 40 } := by
  refine ⟨?_, ?_, ?_, ?_, ?_⟩
  · intro a p
    rw [calculate_platform_fee_crypto]
    exact ⟨rfl, rfl, rfl⟩
  · rw [calculate_platform_fee_crypto]
    norm_num [round8, roundQ, Rat.floor_def']
  · rw [calculate_platform_fee_crypto]
    norm_num [round8, roundQ, Rat.floor_def']
  · intro a p
    rw [calculate_platform_fee_paypal]
    exact ⟨rfl, rfl, rfl⟩
  · rw [calculate_platform_fee_crypto]
    norm_num [round8, roundQ, Rat.floor_def']

/-- C10: when the live price lookup fails (`none`) or reports no price
(`0`), the crypto fee computation values the escrow at 0 USD, always
selects the higher 2% rate, and escrow creation persists that zero USD
valuation on the record. -/
theorem failed_price_lookup_gives_zero_usd_and_high_rate :
    ∀ id b s (a : ℚ) c,
      (calculate_platform_fee a none cryptoPM).usd_amount = 0
      ∧ (calculate_platform_fee a none cryptoPM).fee_rate = 2/100
      ∧ (calculate_platform_fee a (some 0) cryptoPM).usd_amount = 0
      ∧ (calculate_platform_fee a (some 0) cryptoPM).fee_rate = 2/100
      ∧ (create_escrow_record id b s a c cryptoPM none).usd_amount = 0
      ∧ (create_escrow_record id b s a c cryptoPM none).platform_fee_rate = 2/100 := by
  intro id b s a c
  have h0 : round8 (a * (0:ℚ)) = 0 := by
    norm_num [round8, roundQ, Rat.floor_def']
  have hc : ∀ p : Option ℚ, p.getD 0 = 0 → (calculate_platform_fee a p cryptoPM).usd_amount = 0
      ∧ (calculate_platform_fee a p cryptoPM).fee_rate = 2/100 := by
    intro p hp
    rw [calculate_platform_fee_crypto]
    constructor
    · simpa [hp] using h0
    · have : round8 (a * p.getD 0) < 50 := by
        rw [hp, h0]; norm_num
      simp [this]
  refine ⟨(hc none rfl).1, (hc none rfl).2, (hc (some 0) rfl).1, (hc (some 0) rfl).2, ?_, ?_⟩
  · show (calculate_platform_fee a none cryptoPM).usd_amount = 0
    exact (hc none rfl).1
  · show (calculate_platform_fee a none cryptoPM).fee_rate = 2/100
    exact (hc none rfl).2

/-- C4: for every escrow the fee computation's outputs satisfy
`net_amount + fee_amount = amount` within one unit of the 8-decimal
rounding (for crypto in crypto units; for PayPal the USD amount equals
`amount`), and the stored amount/fee fields are not changed by the
release path (`release_funds` never updates the escrow row, and
`confirm_escrow` only touches status/action/confirmation fields). -/
theorem fee_conservation_and_release_preserves_amounts :
    (∀ (a : ℚ) p pm, |(calculate_platform_fee a p pm).net_amount
        + (calculate_platform_fee a p pm).fee_amount - a| ≤ 1 / 100000000)
    ∧ (∀ env db, (release_funds env db).2.escrow = db.escrow)
    ∧ (∀ env uid action snap db,
        feeFields (confirm_escrow env uid action snap db).1.escrow
          = feeFields db.escrow) := by
  refine ⟨?_, release_preserves_escrow, ?_⟩
  · intro a p pm
    by_cases h1 : pm = cryptoPM
    · subst h1
      rw [calculate_platform_fee_crypto]
      exact net_fee_bound a _
    · by_cases h2 : pm = paypalPM
      · subst h2
        rw [calculate_platform_fee_paypal]
        exact net_fee_bound a _
      · rw [calculate_platform_fee_other a p pm h1 h2]
        exact net_fee_bound a _
  · intro env uid action snap db
    unfold confirm_escrow
    dsimp only
    split_ifs <;>
      first
        | rfl
        | rw [converge_release_feeFields, update_own_action_feeFields]
        | (have h := update_own_action_feeFields uid action snap db
           simp only [feeFields] at h
           exact h)

/-- C5: a confirmation submission writes only the submitting party's own
action column; the write is conditioned on the escrow's status still
equaling the status read at the start of the request, and when that
condition fails the handler re-reads the escrow and returns the current
record as a 200 success, applying no action and invoking no settlement;
moreover the other party's action column is never written. -/
theorem confirm_writes_own_action_under_status_guard :
    ∀ env uid action snap db,
      (action = releaseA ∨ action = cancelA) →
      (uid = snap.buyer_id ∨ uid = snap.seller_id) →
      ¬(action = releaseA ∧ snap.payment_method = cryptoPM
          ∧ snap.seller_address.isNone = true) →
      ¬(action = releaseA ∧ snap.payment_method = paypalPM
          ∧ snap.seller_paypal_email.isNone = true) →
      (db.escrow.status ≠ snap.status →
        confirm_escrow env uid action snap db = (db, .ok db.escrow))
      ∧ (db.escrow.status = snap.status → snap.buyer_id = uid →
          snap.seller_action ≠ some action →
          confirm_escrow env uid action snap db =
            ({ db with escrow := { db.escrow with buyer_action := some action } },
             .ok { db.escrow with buyer_action := some action }))
      ∧ (db.escrow.status = snap.status → ¬ snap.buyer_id = uid →
          snap.buyer_action ≠ some action →
          confirm_escrow env uid action snap db =
            ({ db with escrow := { db.escrow with seller_action := some action } },
             .ok { db.escrow with seller_action := some action }))
      ∧ (snap.buyer_id = uid →
          (confirm_escrow env uid action snap db).1.escrow.seller_action
            = db.escrow.seller_action)
      ∧ (¬ snap.buyer_id = uid →
          (confirm_escrow env uid action snap db).1.escrow.buyer_action
            = db.escrow.buyer_action) := by
  intro env uid action snap db hact hpart h3 h4
  have h1 : ¬(action ≠ releaseA ∧ action ≠ cancelA) := by
    rcases hact with h | h <;> simp [h]
  have h2 : ¬(uid ≠ snap.buyer_id ∧ uid ≠ snap.seller_id) := by
    rcases hpart with h | h <;> simp [h]
  refine ⟨?_, ?_, ?_, ?_, ?_⟩
  · intro hs
    unfold confirm_escrow
    rw [if_neg h1, if_neg h2, if_neg h3, if_neg h4, if_pos hs]
  · intro hs hb hother
    unfold confirm_escrow
    rw [if_neg h1, if_neg h2, if_neg h3, if_neg h4,
        if_neg (show ¬db.escrow.status ≠ snap.status from not_not_intro hs)]
    dsimp only
    rw [if_pos hb, if_neg hother, update_own_action_buyer uid action snap db hb]
  · intro hs hb hother
    unfold confirm_escrow
    rw [if_neg h1, if_neg h2, if_neg h3, if_neg h4,
        if_neg (show ¬db.escrow.status ≠ snap.status from not_not_intro hs)]
    dsimp only
    rw [if_neg hb, if_neg hother, update_own_action_seller uid action snap db hb]
  · intro hb
    unfold confirm_escrow
    dsimp only
    split_ifs <;>
      first
        | rfl
        | contradiction
        | (have hc := congrArg Prod.snd
             (converge_release_actionFields env snap (update_own_action uid action snap db))
           dsimp only [actionFields] at hc
           rw [hc, update_own_action_buyer uid action snap db hb])
        | rw [update_own_action_buyer uid action snap db hb]
  · intro hb
    unfold confirm_escrow
    dsimp only
    split_ifs <;>
      first
        | rfl
        | contradiction
        | (have hc := congrArg Prod.fst
             (converge_release_actionFields env snap (update_own_action uid action snap db))
           dsimp only [actionFields] at hc
           rw [hc, update_own_action_seller uid action snap db hb])
        | rw [update_own_action_seller uid action snap db hb]

/-- Witness for C5: a buyer release submission against an escrow whose
status moved to `processing` since it was read returns the current record
unchanged as a success. -/
theorem confirm_writes_own_action_under_status_guard_witness :
    confirm_escrow envOk buyerU releaseA sampleEscrow sampleProcessingDB
      = (sampleProcessingDB, .ok sampleProcessingDB.escrow) :=
  (confirm_writes_own_action_under_status_guard envOk buyerU releaseA sampleEscrow
    sampleProcessingDB (Or.inl rfl) (Or.inl rfl) (by decide) (by decide)).1 (by decide)

/-- C8: funding detection flips `pending → funded` exactly once.  The
crypto detector inserts its deposit row only when the conditional update
keyed on status `pending` succeeds, and reports "already funded" with no
state change otherwise; the PayPal authorization handler likewise inserts
its deposit row only on the winning flip and returns a 409 conflict on an
already-funded escrow. -/
theorem funding_detection_exactly_once :
    (∀ uid db, db.escrow.buyer_id = uid →
      db.escrow.payment_method = cryptoPM → db.escrow.deposit_address.isSome = true →
      db.escrow.status = pendingS →
      check_payment_status uid true db =
        ({ db with
           escrow := { db.escrow with status := fundedS },
           transactions := db.transactions ++
             [ { escrow_id := db.escrow.id, txType := depositT, amount := db.escrow.amount,
                 currency := db.escrow.currency, tx_ref := some pendingVerificationS,
                 usd_amount := none } ] },
         .funded (some { db.escrow with status := fundedS })))
    ∧ (∀ uid db, db.escrow.buyer_id = uid →
        db.escrow.payment_method = cryptoPM → db.escrow.deposit_address.isSome = true →
        db.escrow.status ≠ pendingS →
        check_payment_status uid true db = (db, .funded none))
    ∧ (∀ t a db, db.escrow.status = pendingS →
        handle_paypal_authorization (some t) (some a) db =
          ({ db with
             escrow := { db.escrow with
                         status := fundedS, paypal_authorization_id := some a },
             transactions := db.transactions ++
               [ { escrow_id := db.escrow.id, txType := depositT, amount := db.escrow.amount,
                   currency := db.escrow.currency, tx_ref := some a,
                   usd_amount := some db.escrow.amount } ] },
           .funded (some { db.escrow with
                           status := fundedS, paypal_authorization_id := some a })))
    ∧ (∀ t a db, db.escrow.status ≠ pendingS →
        handle_paypal_authorization (some t) (some a) db = (db, .err 409)) := by
  refine ⟨?_, ?_, ?_, ?_⟩
  · intro uid db hb hpm hda hs
    unfold check_payment_status
    rw [if_neg (not_not_intro hb), if_pos ⟨hpm, hda⟩, if_pos rfl, if_pos hs]
  · intro uid db hb hpm hda hs
    unfold check_payment_status
    rw [if_neg (not_not_intro hb), if_pos ⟨hpm, hda⟩, if_pos rfl, if_neg hs]
  · intro t a db hs
    unfold handle_paypal_authorization
    rw [if_neg (show ¬(some t).isNone = true by simp)]
    dsimp only
    rw [if_pos hs]
  · intro t a db hs
    unfold handle_paypal_authorization
    rw [if_neg (show ¬(some t).isNone = true by simp)]
    dsimp only
    rw [if_neg hs]

/-- Witness for C8: the sample pending escrow funds once (crypto detector
inserts one deposit row), and a second crypto detection plus a PayPal
authorization against the now-funded escrow change nothing. -/
theorem funding_detection_exactly_once_witness :
    check_payment_status buyerU true samplePendingDB =
      ({ samplePendingDB with
         escrow := { samplePendingDB.escrow with status := fundedS },
         transactions := samplePendingDB.transactions ++
           [ { escrow_id := samplePendingDB.escrow.id, txType := depositT,
               amount := samplePendingDB.escrow.amount,
               currency := samplePendingDB.escrow.currency,
               tx_ref := some pendingVerificationS, usd_amount := none } ] },
       .funded (some { samplePendingDB.escrow with status := fundedS }))
    ∧ check_payment_status buyerU true sampleDB = (sampleDB, .funded none)
    ∧ handle_paypal_authorization (some tx1) (some tx2) sampleDB = (sampleDB, .err 409) :=
  ⟨funding_detection_exactly_once.1 buyerU samplePendingDB rfl rfl (by decide) (by decide),
   funding_detection_exactly_once.2.1 buyerU sampleDB rfl rfl (by decide) (by decide),
   funding_detection_exactly_once.2.2.2 tx1 tx2 sampleDB (by decide)⟩

/-- After a successful `generate_crypto_address` call the cache holds a
record with the returned address under the escrow id. -/
theorem generate_success_cached (env : WalletEnv) (cur id : String) (st : WalletSt) (a : String)
    (h : (generate_crypto_address env cur id st).1 = some a) :
    ∃ w, (generate_crypto_address env cur id st).2.1.cache.lookup id = some w
      ∧ w.address = a := by
  unfold generate_crypto_address at h ⊢
  cases hc : st.cache.lookup id with
  | some w =>
    rw [hc] at h
    dsimp only at h ⊢
    exact ⟨w, hc, by simpa using h⟩
  | none =>
    rw [hc] at h
    dsimp only at h ⊢
    cases hf : st.store.find? (fun x => x.escrow_id == id) with
    | some w =>
      rw [hf] at h
      dsimp only at h ⊢
      exact ⟨w, by simp [List.lookup], by simpa using h⟩
    | none =>
      rw [hf] at h
      dsimp only at h ⊢
      by_cases hk : env.api_key = true
      · rw [if_neg (not_not_intro hk)] at h ⊢
        cases hch : env.chain with
        | none => rw [hch] at h; simp at h
        | some chain =>
          rw [hch] at h
          dsimp only at h ⊢
          cases hw : env.wallet_resp with
          | none => rw [hw] at h; simp at h
          | some mx =>
            rw [hw] at h
            obtain ⟨mnemonic, xpubO⟩ := mx
            dsimp only at h ⊢
            cases xpubO with
            | none => simp at h
            | some xpub =>
              dsimp only at h ⊢
              cases har : env.addr_resp with
              | none => rw [har] at h; simp at h
              | some address =>
                rw [har] at h
                dsimp only at h ⊢
                refine ⟨{ escrow_id := id, mnemonic := mnemonic, xpub := xpub,
                          address := address, currency := cur, chain := chain,
                          address_index := 0 }, ?_, ?_⟩
                · simp [List.lookup]
                · simpa using h
      · rw [if_pos hk] at h
        simp at h

/-- C7: the deposit-wallet operation is idempotent per escrow id — once a
call has returned an address, any later call (any rail outcome) returns
the same address, leaves the wallet state unchanged and invokes no
generation; and when the cache or the durable store already holds a
wallet for the escrow id, the operation returns that wallet's address
without generating and without touching the store. -/
theorem wallet_get_or_create_idempotent :
    (∀ env1 env2 cur1 cur2 id st a,
      (generate_crypto_address env1 cur1 id st).1 = some a →
      generate_crypto_address env2 cur2 id (generate_crypto_address env1 cur1 id st).2.1
        = (some a, (generate_crypto_address env1 cur1 id st).2.1, false))
    ∧ (∀ env cur id st w, st.cache.lookup id = some w →
        generate_crypto_address env cur id st = (some w.address, st, false))
    ∧ (∀ env cur id st w, st.cache.lookup id = none →
        st.store.find? (fun x => x.escrow_id == id) = some w →
        generate_crypto_address env cur id st
          = (some w.address, { st with cache := (id, w) :: st.cache }, false)) := by
  refine ⟨?_, ?_, ?_⟩
  · intro env1 env2 cur1 cur2 id st a h
    obtain ⟨w, hlook, haddr⟩ := generate_success_cached env1 cur1 id st a h
    generalize hst : (generate_crypto_address env1 cur1 id st).2.1 = st1 at hlook ⊢
    unfold generate_crypto_address
    rw [hlook]
    dsimp only
    rw [haddr]
  · intro env cur id st w hc
    unfold generate_crypto_address
    rw [hc]
  · intro env cur id st w hc hf
    unfold generate_crypto_address
    rw [hc, hf]

/-- Witness for C7: generating a wallet for the sample escrow and calling
again returns the same address with no second generation. -/
theorem wallet_get_or_create_idempotent_witness :
    generate_crypto_address envWalletOk btcC anId
        ((generate_crypto_address envWalletOk btcC anId emptyWalletSt).2.1)
      = (some depAddr1,
         (generate_crypto_address envWalletOk btcC anId emptyWalletSt).2.1, false) :=
  wallet_get_or_create_idempotent.1 envWalletOk envWalletOk btcC btcC anId
    emptyWalletSt depAddr1 rfl

/-- C9: referral accrual is a state-preserving success no-op when a payout
for the escrow already exists, when the buyer has no referrer, or when the
payment method is unsupported; when it accrues it writes exactly one
`ReferralPayout` and one matching ledger credit of
`round2 (round2 (usd_amount * platform_fee_rate) * referral_rate)` USD;
and running the accrual twice with the same inputs changes nothing beyond
the first run (at most one payout per escrow). -/
theorem referral_accrual_idempotent_and_amount :
    (∀ env db, (db.referral_payouts.any fun p => p.escrow_id == db.escrow.id) = true →
        award_referral_payout env db = (true, db))
    ∧ (∀ env db, env.buyer_referrer = none → award_referral_payout env db = (true, db))
    ∧ (∀ env db, db.escrow.payment_method ≠ cryptoPM → db.escrow.payment_method ≠ paypalPM →
        award_referral_payout env db = (true, db))
    ∧ (∀ env db r,
        (db.escrow.payment_method = cryptoPM ∨ db.escrow.payment_method = paypalPM) →
        (db.referral_payouts.any fun p => p.escrow_id == db.escrow.id) = false →
        env.buyer_referrer = some r →
        0 < round2 (db.escrow.usd_amount * db.escrow.platform_fee_rate) →
        0 < env.referral_rate →
        award_referral_payout env db =
          (true, { db with
            referral_payouts := db.referral_payouts ++
              [{ referrer_id := r, referred_user_id := db.escrow.buyer_id,
                 escrow_id := db.escrow.id,
                 amount_usd := round2 (round2 (db.escrow.usd_amount
                   * db.escrow.platform_fee_rate) * env.referral_rate),
                 rate := env.referral_rate }],
            referral_ledger := db.referral_ledger ++
              [{ user_id := r, entryType := creditT, source := commissionSrc,
                 amount_usd := round2 (round2 (db.escrow.usd_amount
                   * db.escrow.platform_fee_rate) * env.referral_rate) }] }))
    ∧ (∀ env db, (award_referral_payout env (award_referral_payout env db).2).2
        = (award_referral_payout env db).2) := by
  have part1 : ∀ env db,
      (db.referral_payouts.any fun p => p.escrow_id == db.escrow.id) = true →
      award_referral_payout env db = (true, db) := by
    intro env db hany
    unfold award_referral_payout
    dsimp only
    split_ifs <;> rfl
  have part2 : ∀ env db, env.buyer_referrer = none →
      award_referral_payout env db = (true, db) := by
    intro env db href
    unfold award_referral_payout
    dsimp only
    split_ifs <;> first | rfl | rw [href]
  have part3 : ∀ env db, db.escrow.payment_method ≠ cryptoPM →
      db.escrow.payment_method ≠ paypalPM → award_referral_payout env db = (true, db) := by
    intro env db hc hp
    unfold award_referral_payout
    dsimp only
    rw [if_pos ⟨hc, hp⟩]
  have part4 : ∀ env db r,
      (db.escrow.payment_method = cryptoPM ∨ db.escrow.payment_method = paypalPM) →
      (db.referral_payouts.any fun p => p.escrow_id == db.escrow.id) = false →
      env.buyer_referrer = some r →
      0 < round2 (db.escrow.usd_amount * db.escrow.platform_fee_rate) →
      0 < env.referral_rate →
      award_referral_payout env db =
        (true, { db with
          referral_payouts := db.referral_payouts ++
            [{ referrer_id := r, referred_user_id := db.escrow.buyer_id,
               escrow_id := db.escrow.id,
               amount_usd := round2 (round2 (db.escrow.usd_amount
                 * db.escrow.platform_fee_rate) * env.referral_rate),
               rate := env.referral_rate }],
          referral_ledger := db.referral_ledger ++
            [{ user_id := r, entryType := creditT, source := commissionSrc,
               amount_usd := round2 (round2 (db.escrow.usd_amount
                 * db.escrow.platform_fee_rate) * env.referral_rate) }] }) := by
    intro env db r hpm hany href hfee hrate
    unfold award_referral_payout
    dsimp only
    rw [if_neg (by rcases hpm with h | h <;> simp [h]), if_neg (by simp [hany]), href]
    dsimp only
    rw [if_neg (by simp only [not_or, not_le]; exact ⟨hfee, hrate⟩)]
  refine ⟨part1, part2, part3, part4, ?_⟩
  · intro env db
    by_cases h1 : db.escrow.payment_method ≠ cryptoPM ∧ db.escrow.payment_method ≠ paypalPM
    · rw [part3 env db h1.1 h1.2, part3 env db h1.1 h1.2]
    · have hpm : db.escrow.payment_method = cryptoPM ∨ db.escrow.payment_method = paypalPM := by
        rcases not_and_or.mp h1 with h | h
        · exact Or.inl (not_not.mp h)
        · exact Or.inr (not_not.mp h)
      by_cases h2 : (db.referral_payouts.any fun p => p.escrow_id == db.escrow.id) = true
      · rw [part1 env db h2, part1 env db h2]
      · cases href : env.buyer_referrer with
        | none => rw [part2 env db href, part2 env db href]
        | some r =>
          by_cases h3 : round2 (db.escrow.usd_amount * db.escrow.platform_fee_rate) ≤ 0
            ∨ env.referral_rate ≤ 0
          · have e1 : award_referral_payout env db = (true, db) := by
              unfold award_referral_payout
              rw [if_neg (by rcases hpm with h | h <;> simp [h]), if_neg h2, href]
              dsimp only
              rw [if_pos h3]
            rw [e1, e1]
          · have hfee : 0 < round2 (db.escrow.usd_amount * db.escrow.platform_fee_rate) :=
              lt_of_not_le fun hle => h3 (Or.inl hle)
            have hrate : 0 < env.referral_rate :=
              lt_of_not_le fun hle => h3 (Or.inr hle)
            have e1 := part4 env db r hpm (by simpa [Bool.not_eq_true] using h2) href hfee hrate
            rw [e1]
            apply congrArg Prod.snd
            apply part1
            simp

/-- Witness for C9: on the sample funded escrow (40 USD at 2% fee, 20%
referral rate) with a referred buyer and no prior payout, accrual credits
round2(round2(40 * 0.02) * 0.2) = 0.16 USD exactly once. -/
theorem referral_accrual_idempotent_and_amount_witness :
    award_referral_payout { envOk with buyer_referrer := some refU } sampleDB =
      (true, { sampleDB with
        referral_payouts :=
          [{ referrer_id := refU, referred_user_id := buyerU, escrow_id := anId,
             amount_usd := round2 (round2 (40 * (2/100)) * (2/10)), rate := 2/10 }],
        referral_ledger :=
          [{ user_id := refU, entryType := creditT, source := commissionSrc,
             amount_usd := round2 (round2 (40 * (2/100)) * (2/10)) }] }) := by
  have h := referral_accrual_idempotent_and_amount.2.2.2.1
    { envOk with buyer_referrer := some refU } sampleDB refU (Or.inl rfl) rfl rfl
    (by norm_num [sampleDB, sampleEscrow, round2, roundQ, Rat.floor_def'])
    (by norm_num [envOk])
  simpa [sampleDB, sampleEscrow, envOk] using h

/-- On a crypto escrow with a seller address, a failed seller send makes
`release_funds` return `False` before inserting any transaction row. -/
theorem release_funds_seller_send_fails (env : Env) (db : DB) (sa : String)
    (hpm : db.escrow.payment_method = cryptoPM)
    (hsa : db.escrow.seller_address = some sa)
    (hss : env.seller_send = none) :
    release_funds env db = (false, db) := by
  unfold release_funds
  dsimp only
  rw [if_pos hpm, hsa]
  dsimp only
  rw [hss]

/-- A converging seller `release` request whose seller send fails ends in
`release_failed` with the transactions table untouched and a 500 error. -/
theorem confirm_crypto_seller_send_fails (env : Env) (uid : String) (snap : Escrow) (db : DB)
    (sa : String)
    (hss : env.seller_send = none)
    (huid : uid = snap.seller_id)
    (hbnu : snap.buyer_id ≠ uid)
    (hpm : snap.payment_method = cryptoPM)
    (hsnone : snap.seller_address.isNone = false)
    (hba : snap.buyer_action = some releaseA)
    (hst : db.escrow.status = snap.status)
    (hpm2 : db.escrow.payment_method = cryptoPM)
    (hsa2 : db.escrow.seller_address = some sa) :
    (confirm_escrow env uid releaseA snap db).1.escrow.status = releaseFailedS
    ∧ (confirm_escrow env uid releaseA snap db).1.transactions = db.transactions
    ∧ (confirm_escrow env uid releaseA snap db).2 = .err 500 := by
  unfold confirm_escrow
  rw [if_neg (by simp), if_neg (fun h => h.2 huid), if_neg (by simp [hsnone]),
      if_neg (by simp [hpm, cryptoPM, paypalPM]), if_neg (not_not_intro hst)]
  dsimp only
  rw [if_neg hbnu, if_pos hba, if_pos rfl,
      update_own_action_seller uid releaseA snap db hbnu]
  unfold converge_release
  dsimp only
  rw [if_neg (not_not_intro hst)]
  have hrel := release_funds_seller_send_fails env
    { db with
      escrow := { db.escrow with
                  seller_action := some releaseA, status := processingS,
                  buyer_confirmed := true, seller_confirmed := true },
      settlements := db.settlements + 1 } sa hpm2 hsa2 hss
  dsimp only at hrel
  rw [hrel]
  rw [if_neg (show ¬((false, _) : Bool × DB).1 = true by simp)]
  exact ⟨rfl, rfl, rfl⟩

/-- C1 (amended): on a crypto release where the platform-fee send succeeds
but the subsequent net-amount send to the seller fails, the escrow's
status becomes `release_failed` and NO TransactionRecord is inserted by
the attempt: the platform_fee row count and the release row count are both
unchanged (the fee transfer, though performed on the rail, goes
unrecorded), and the caller receives a 500 error. -/
theorem seller_send_failure_release_failed_and_no_rows (env : Env) (uid : String)
    (snap : Escrow) (db : DB) (sa ftx : String)
    (hfs : env.fee_send = some ftx)
    (hss : env.seller_send = none)
    (huid : uid = snap.seller_id)
    (hbnu : snap.buyer_id ≠ uid)
    (hpm : snap.payment_method = cryptoPM)
    (hsnone : snap.seller_address.isNone = false)
    (hba : snap.buyer_action = some releaseA)
    (hst : db.escrow.status = snap.status)
    (hpm2 : db.escrow.payment_method = cryptoPM)
    (hsa2 : db.escrow.seller_address = some sa) :
    (confirm_escrow env uid releaseA snap db).1.escrow.status = releaseFailedS
    ∧ (confirm_escrow env uid releaseA snap db).1.transactions = db.transactions
    ∧ (confirm_escrow env uid releaseA snap db).1.transactions.countP
        (fun t => t.txType == platformFeeT)
      = db.transactions.countP (fun t => t.txType == platformFeeT)
    ∧ (confirm_escrow env uid releaseA snap db).1.transactions.countP
        (fun t => t.txType == releaseT)
      = db.transactions.countP (fun t => t.txType == releaseT)
    ∧ (confirm_escrow env uid releaseA snap db).2 = .err 500 := by
  obtain ⟨h1, h2, h3⟩ :=
    confirm_crypto_seller_send_fails env uid snap db sa hss huid hbnu hpm hsnone hba
      hst hpm2 hsa2
  exact ⟨h1, h2, by rw [h2], by rw [h2], h3⟩

/-- Witness for C1 (amended): the concrete scenario — funded 0.02 BTC
escrow, buyer already released, seller releases, fee send would succeed,
seller send fails. -/
theorem seller_send_failure_release_failed_and_no_rows_witness :
    (confirm_escrow envSellerFail sellerU releaseA sampleBuyerReleasedEscrow
        sampleBuyerReleasedDB).1.escrow.status = releaseFailedS
    ∧ (confirm_escrow envSellerFail sellerU releaseA sampleBuyerReleasedEscrow
        sampleBuyerReleasedDB).1.transactions = sampleBuyerReleasedDB.transactions
    ∧ (confirm_escrow envSellerFail sellerU releaseA sampleBuyerReleasedEscrow
        sampleBuyerReleasedDB).1.transactions.countP (fun t => t.txType == platformFeeT)
      = sampleBuyerReleasedDB.transactions.countP (fun t => t.txType == platformFeeT)
    ∧ (confirm_escrow envSellerFail sellerU releaseA sampleBuyerReleasedEscrow
        sampleBuyerReleasedDB).1.transactions.countP (fun t => t.txType == releaseT)
      = sampleBuyerReleasedDB.transactions.countP (fun t => t.txType == releaseT)
    ∧ (confirm_escrow envSellerFail sellerU releaseA sampleBuyerReleasedEscrow
        sampleBuyerReleasedDB).2 = .err 500 :=
  seller_send_failure_release_failed_and_no_rows envSellerFail sellerU
    sampleBuyerReleasedEscrow sampleBuyerReleasedDB addr1 tx1 rfl rfl rfl (by decide)
    rfl (by decide) rfl rfl rfl rfl

/-- Counterexample to C1 as stated: in the fee-send-succeeds /
seller-send-fails scenario the escrow has ZERO platform_fee transaction
rows, not exactly one — the source returns from `release_funds` before any
row is inserted. -/
theorem release_failure_scenario_zero_platform_fee_rows :
    ¬ ((confirm_escrow envSellerFail sellerU releaseA sampleBuyerReleasedEscrow
          sampleBuyerReleasedDB).1.transactions.countP
            (fun t => t.txType == platformFeeT) = 1) := by
  have h := (confirm_crypto_seller_send_fails envSellerFail sellerU
    sampleBuyerReleasedEscrow sampleBuyerReleasedDB addr1 rfl rfl (by decide) rfl
    (by decide) rfl rfl rfl rfl).2.1
  intro hc
  rw [h] at hc
  simp [sampleBuyerReleasedDB, sampleDB] at hc

/-- C2 is violated by the code: `confirm_escrow` never gates on the
current status before accepting an action, so a `release` re-submission
after the escrow completed passes the action write (`completed` equals the
freshly read status), finds both actions equal to `release`, wins the
conditional flip `completed -> processing` (the flip is keyed on the
previously READ status, not on `funded`), and invokes the settlement
routine a second time: after buyer-release, seller-release (settling and
completing the escrow), and a buyer re-release, the settlement count is 2. -/
theorem double_settlement_on_resubmission_after_completion :
    (confirm_escrow envOk sellerU releaseA
        (confirm_escrow envOk buyerU releaseA sampleEscrow sampleDB).1.escrow
        (confirm_escrow envOk buyerU releaseA sampleEscrow sampleDB).1).1.escrow.status
      = completedS
    ∧ (confirm_escrow envOk sellerU releaseA
        (confirm_escrow envOk buyerU releaseA sampleEscrow sampleDB).1.escrow
        (confirm_escrow envOk buyerU releaseA sampleEscrow sampleDB).1).1.settlements = 1
    ∧ (confirm_escrow envOk buyerU releaseA
        (confirm_escrow envOk sellerU releaseA
          (confirm_escrow envOk buyerU releaseA sampleEscrow sampleDB).1.escrow
          (confirm_escrow envOk buyerU releaseA sampleEscrow sampleDB).1).1.escrow
        (confirm_escrow envOk sellerU releaseA
          (confirm_escrow envOk buyerU releaseA sampleEscrow sampleDB).1.escrow
          (confirm_escrow envOk buyerU releaseA sampleEscrow sampleDB).1).1).1.settlements
      = 2 := by
  exact ⟨rfl, rfl, rfl⟩

theorem ledgerBalance_append_credit (uid : String) (l : List LedgerEntry) (src : String)
    (c : ℚ) :
    ledgerBalanceRaw uid (l ++
        [{ user_id := uid, entryType := creditT, source := src, amount_usd := c }])
      = ledgerBalanceRaw uid l + c := by
  simp [ledgerBalanceRaw, ledgerCredits, ledgerDebits, List.filter_append, creditT, debitT]
  ring

theorem ledgerBalance_append_debit (uid : String) (l : List LedgerEntry) (src : String)
    (a : ℚ) :
    ledgerBalanceRaw uid (l ++
        [{ user_id := uid, entryType := debitT, source := src, amount_usd := a }])
      = ledgerBalanceRaw uid l - a := by
  simp [ledgerBalanceRaw, ledgerCredits, ledgerDebits, List.filter_append, creditT, debitT]
  ring

theorem referral_withdraw_rejected (uid : String) (a : ℚ) (cOk aOk : Bool)
    (o : PayoutOutcome) (st : RefSt)
    (hrej : a < MIN_WITHDRAW_USD ∨ a > 10000
      ∨ a > round2 (ledgerCredits uid st.ledger - ledgerDebits uid st.ledger)) :
    referral_withdraw uid a cOk aOk o st = (st, 400) := by
  unfold referral_withdraw
  dsimp only
  split_ifs with h1 h2 h3 h4 <;> try rfl
  rcases hrej with hx | hx | hx
  · exact absurd hx h1
  · exact absurd hx h2
  · exact absurd hx h4

theorem referral_withdraw_accepted_paid (uid : String) (a : ℚ) (st : RefSt) (tx : String)
    (hmin : ¬ a < MIN_WITHDRAW_USD) (hcap : ¬ a > 10000)
    (hbal : ¬ a > round2 (ledgerCredits uid st.ledger - ledgerDebits uid st.ledger)) :
    referral_withdraw uid a true true (.paid tx) st =
      ({ ledger := st.ledger ++
           [{ user_id := uid, entryType := debitT, source := withdrawalSrc,
              amount_usd := a }],
         withdrawals := st.withdrawals ++ [{ amount_usd := a, status := paidS }] },
       200) := by
  unfold referral_withdraw
  dsimp only
  rw [if_neg hmin, if_neg hcap, if_neg (by simp), if_neg hbal]

theorem referral_withdraw_accepted_failed (uid : String) (a : ℚ) (o : PayoutOutcome)
    (st : RefSt)
    (hmin : ¬ a < MIN_WITHDRAW_USD) (hcap : ¬ a > 10000)
    (hbal : ¬ a > round2 (ledgerCredits uid st.ledger - ledgerDebits uid st.ledger))
    (ho : o = .priceUnavailable ∨ o = .payoutError ∨ o = .exceptionRaised) :
    referral_withdraw uid a true true o st =
      ({ ledger := (st.ledger ++
           [{ user_id := uid, entryType := debitT, source := withdrawalSrc,
              amount_usd := a }]) ++
           [{ user_id := uid, entryType := creditT, source := withdrawalFailedSrc,
              amount_usd := a }],
         withdrawals := st.withdrawals ++ [{ amount_usd := a, status := failedS }] },
       500) := by
  rcases ho with rfl | rfl | rfl <;>
    (unfold referral_withdraw
     dsimp only
     rw [if_neg hmin, if_neg hcap, if_neg (by simp), if_neg hbal])

theorem applyRefOp_preserves_lower_bound (uid : String) (st : RefSt) (op : RefOp)
    (hop : validRefOp op) (h : -1/200 ≤ ledgerBalanceRaw uid st.ledger) :
    -1/200 ≤ ledgerBalanceRaw uid (applyRefOp uid st op).ledger := by
  cases op with
  | accrue c =>
    dsimp only [applyRefOp]
    rw [ledgerBalance_append_credit]
    have hc : (0:ℚ) ≤ c := hop
    linarith
  | withdraw a cOk aOk o =>
    dsimp only [applyRefOp]
    have hround := round2_le_add_half_cent
      (ledgerCredits uid st.ledger - ledgerDebits uid st.ledger)
    have hbal : ledgerBalanceRaw uid st.ledger
        = ledgerCredits uid st.ledger - ledgerDebits uid st.ledger := rfl
    cases o <;>
      (unfold referral_withdraw
       dsimp only
       split_ifs with h1 h2 h3 h4 <;>
         first
           | exact h
           | (dsimp only
              rw [ledgerBalance_append_credit, ledgerBalance_append_debit]
              linarith)
           | (dsimp only
              rw [ledgerBalance_append_debit]
              rw [hbal] at h ⊢
              linarith [not_lt.mp h4]))

theorem runRefOps_preserves_lower_bound (uid : String) (ops : List RefOp) :
    ∀ st, (∀ op ∈ ops, validRefOp op) → -1/200 ≤ ledgerBalanceRaw uid st.ledger →
      -1/200 ≤ ledgerBalanceRaw uid (runRefOps uid st ops).ledger := by
  induction ops with
  | nil => intro st _ h; exact h
  | cons op rest ih =>
    intro st hv h
    have h1 := applyRefOp_preserves_lower_bound uid st op (hv op (List.mem_cons_self _ _)) h
    exact ih _ (fun o ho => hv o (List.mem_cons_of_mem _ ho)) h1

/-- Counterexample to C6 as stated: the acceptance check compares the
requested amount against the CENT-ROUNDED ledger balance, which can round
up, so the exact balance (sum of credits minus sum of debits) can go
negative.  Trace: accrue 100.00; withdraw 90.004 (accepted since 90.004 ≤
round2(100) = 100); withdraw 10.00 (accepted since 10.00 ≤ round2(9.996)
= 10.00) — final exact balance is −0.004 < 0. -/
theorem ledger_balance_goes_negative :
    ledgerBalanceRaw refU (runRefOps refU { ledger := [], withdrawals := [] }
      [ .accrue 100,
        .withdraw (90 + 4/1000) true true (.paid tx1),
        .withdraw 10 true true (.paid tx2) ]).ledger < 0 := by
  have hstep : runRefOps refU { ledger := [], withdrawals := [] }
      [ .accrue 100,
        .withdraw (90 + 4/1000) true true (.paid tx1),
        .withdraw 10 true true (.paid tx2) ]
      = runRefOps refU cexSt1
        [ .withdraw (90 + 4/1000) true true (.paid tx1),
          .withdraw 10 true true (.paid tx2) ] := rfl
  rw [hstep]
  have hc1 : ledgerCredits refU cexSt1.ledger = 100 := by
    simp [cexSt1, cexCredit100, ledgerCredits, creditT, debitT]
  have hd1 : ledgerDebits refU cexSt1.ledger = 0 := by
    simp [cexSt1, cexCredit100, ledgerDebits, creditT, debitT]
  have hc2 : ledgerCredits refU (cexSt1.ledger ++
      [{ user_id := refU, entryType := debitT, source := withdrawalSrc,
         amount_usd := (90 + 4/1000 : ℚ) }]) = 100 := by
    simp [cexSt1, cexCredit100, ledgerCredits, creditT, debitT, List.filter_append]
  have hd2 : ledgerDebits refU (cexSt1.ledger ++
      [{ user_id := refU, entryType := debitT, source := withdrawalSrc,
         amount_usd := (90 + 4/1000 : ℚ) }]) = 90 + 4/1000 := by
    simp [cexSt1, cexCredit100, ledgerDebits, creditT, debitT, List.filter_append]
  have e2 := referral_withdraw_accepted_paid refU (90 + 4/1000) cexSt1 tx1
    (by norm_num [MIN_WITHDRAW_USD]) (by norm_num)
    (by rw [hc1, hd1]; norm_num [round2, roundQ, Rat.floor_def'])
  have e3 := referral_withdraw_accepted_paid refU 10
    { ledger := cexSt1.ledger ++
        [{ user_id := refU, entryType := debitT, source := withdrawalSrc,
           amount_usd := 90 + 4/1000 }],
      withdrawals := cexSt1.withdrawals ++
        [{ amount_usd := 90 + 4/1000, status := paidS }] } tx2
    (by norm_num [MIN_WITHDRAW_USD]) (by norm_num)
    (by dsimp only
        rw [hc2, hd2]
        norm_num [round2, roundQ, Rat.floor_def'])
  have hrun : runRefOps refU cexSt1
      [ .withdraw (90 + 4/1000) true true (.paid tx1),
        .withdraw 10 true true (.paid tx2) ]
      = (referral_withdraw refU 10 true true (.paid tx2)
          (referral_withdraw refU (90 + 4/1000) true true (.paid tx1) cexSt1).1).1 := rfl
  rw [hrun, e2]
  dsimp only
  rw [e3]
  dsimp only
  rw [ledgerBalance_append_debit, ledgerBalance_append_debit]
  rw [show ledgerBalanceRaw refU cexSt1.ledger
      = ledgerCredits refU cexSt1.ledger - ledgerDebits refU cexSt1.ledger from rfl,
    hc1, hd1]
  norm_num

/-- C6 (amended): the referral balance (sum of ledger credits minus sum of
ledger debits) never drops below −0.005 USD — half of the cent unit the
acceptance check rounds to — under any sequence of accruals and
withdrawals (equivalently, the cent-rounded balance never goes negative);
a withdrawal is rejected with a 400 when the amount is below the minimum,
above the 10000 cap, or exceeds the cent-rounded balance; an accepted
withdrawal inserts its debit immediately, and every payout failure
(price unavailable, payout error, exception) inserts a compensating
credit of the same amount and marks the withdrawal failed. -/
theorem referral_ledger_balance_bounded :
    (∀ uid ops, (∀ op ∈ ops, validRefOp op) →
      -1/200 ≤ ledgerBalanceRaw uid
        (runRefOps uid { ledger := [], withdrawals := [] } ops).ledger)
    ∧ (∀ uid a cOk aOk o st,
        (a < MIN_WITHDRAW_USD ∨ a > 10000
          ∨ a > round2 (ledgerCredits uid st.ledger - ledgerDebits uid st.ledger)) →
        referral_withdraw uid a cOk aOk o st = (st, 400))
    ∧ (∀ uid a st tx, ¬ a < MIN_WITHDRAW_USD → ¬ a > 10000 →
        ¬ a > round2 (ledgerCredits uid st.ledger - ledgerDebits uid st.ledger) →
        referral_withdraw uid a true true (.paid tx) st =
          ({ ledger := st.ledger ++
               [{ user_id := uid, entryType := debitT, source := withdrawalSrc,
                  amount_usd := a }],
             withdrawals := st.withdrawals ++ [{ amount_usd := a, status := paidS }] },
           200))
    ∧ (∀ uid a o st, ¬ a < MIN_WITHDRAW_USD → ¬ a > 10000 →
        ¬ a > round2 (ledgerCredits uid st.ledger - ledgerDebits uid st.ledger) →
        (o = .priceUnavailable ∨ o = .payoutError ∨ o = .exceptionRaised) →
        referral_withdraw uid a true true o st =
          ({ ledger := (st.ledger ++
               [{ user_id := uid, entryType := debitT, source := withdrawalSrc,
                  amount_usd := a }]) ++
               [{ user_id := uid, entryType := creditT, source := withdrawalFailedSrc,
                  amount_usd := a }],
             withdrawals := st.withdrawals ++ [{ amount_usd := a, status := failedS }] },
           500)) := by
  refine ⟨?_, ?_, ?_, ?_⟩
  · intro uid ops hv
    exact runRefOps_preserves_lower_bound uid ops _ hv
      (by norm_num [ledgerBalanceRaw, ledgerCredits, ledgerDebits])
  · intro uid a cOk aOk o st hrej
    exact referral_withdraw_rejected uid a cOk aOk o st hrej
  · intro uid a st tx hmin hcap hbal
    exact referral_withdraw_accepted_paid uid a st tx hmin hcap hbal
  · intro uid a o st hmin hcap hbal ho
    exact referral_withdraw_accepted_failed uid a o st hmin hcap hbal ho

/-- Witness for C6 (amended): after accruing 10 USD and a successful 5 USD
withdrawal the exact balance respects the bound, and a 1 USD request (below
the 5 USD minimum) is rejected without touching the ledger. -/
theorem referral_ledger_balance_bounded_witness :
    (-1/200 ≤ ledgerBalanceRaw refU
      (runRefOps refU { ledger := [], withdrawals := [] }
        [ .accrue 10, .withdraw 5 true true (.paid tx1) ]).ledger)
    ∧ referral_withdraw refU 1 true true (.paid tx1) { ledger := [], withdrawals := [] }
        = ({ ledger := [], withdrawals := [] }, 400) :=
  ⟨referral_ledger_balance_bounded.1 refU
      [ .accrue 10, .withdraw 5 true true (.paid tx1) ]
      (by
        intro op hop
        fin_cases hop
        · exact (by norm_num : (0:ℚ) ≤ 10)
        · trivial),
   referral_ledger_balance_bounded.2.1 refU 1 true true (.paid tx1)
      { ledger := [], withdrawals := [] }
      (Or.inl (by norm_num [MIN_WITHDRAW_USD]))⟩

end Medius
